import Mathlib

/-!
Verification of the file-based signaling protocol implemented in
`V2/review_gate_v2_mcp.py` (Review Gate V2 MCP server).

The embedding models the protocol's pure decision logic directly from the
source.  Filesystem contents are modelled as association lists from file
names to parsed document bodies; the concurrent host process is modelled
as a schedule `Nat → Store` giving the store observed at each poll
iteration; wall-clock time is modelled as a natural number that advances
by a positive amount (`dt + 1` units) per poll iteration, abstracting the
`asyncio.sleep` calls.  Exceptions raised and caught inside the Python
code are modelled with `Except` where the control flow matters.
-/

/-- Models Python `str.strip()`: drop leading and trailing whitespace. -/
def pyStrip (s : String) : String :=
  ⟨(((s.data.dropWhile Char.isWhitespace).reverse).dropWhile Char.isWhitespace).reverse⟩

/-- Models Python `sep.join(xs)`. -/
def pyJoin (sep : String) : List String → String
  | [] => ""
  | [x] => x
  | x :: xs => x ++ sep ++ pyJoin sep xs

/-- Models Python `s.startswith(pre)` on the character lists. -/
def charsStartWith : List Char → List Char → Bool
  | [], _ => true
  | _ :: _, [] => false
  | p :: ps, c :: cs => p == c && charsStartWith ps cs

/-- Models Python `s.startswith(pre)`. -/
def pyStartsWith (s pre : String) : Bool := charsStartWith pre.data s.data

/-- An attachment descriptor as read from a response document.
`mimeType` models `att.get("mimeType", "")` (the absent-key default `""`
is folded into the field); `fileName` models `att.get("fileName", ...)`
with `none` for an absent key; `base64Data` is the payload. -/
structure Attachment where
  mimeType : String
  fileName : Option String
  base64Data : String
deriving DecidableEq, Repr

/-- A parsed JSON response document as consumed by `_wait_for_user_input`
(lines 858-899).  The three text fields are `Option` because
`data.get(key, default)` falls through only on an absent key;
`attachments` folds the `data.get("attachments", [])` default and
`trigger_id` folds the `data.get("trigger_id", "")` default. -/
structure JsonDoc where
  user_input : Option String
  response : Option String
  message : Option String
  attachments : List Attachment
  trigger_id : String
deriving DecidableEq, Repr

/-- The body of a candidate response file after `read_text().strip()`:
either it starts with the structural marker and parses as JSON
(`json`), or it starts with the marker but `json.loads` raises
(`malformedJson`), or it is treated as plain text (`plain`). -/
inductive Body where
  | malformedJson : Body
  | json : JsonDoc → Body
  | plain : String → Body
deriving DecidableEq, Repr

/-- The single-slot most-recently-seen attachment set
(`self._last_attachments` on the server object). -/
structure WaiterState where
  last_attachments : List Attachment
deriving DecidableEq, Repr

/-- Models the extraction
`data.get("user_input", data.get("response", data.get("message", ""))).strip()`
at lines 861-864 of `_wait_for_user_input`. -/
def extract_user_input (d : JsonDoc) : String :=
  pyStrip (match d.user_input with
    | some s => s
    | none =>
      match d.response with
      | some s => s
      | none =>
        match d.message with
        | some s => s
        | none => "")

/-- Models the `attachment_descriptions` list built at lines 887-891:
one entry `"Image: <fileName or unknown>"` per attachment whose
`mimeType` starts with `"image/"`. -/
def image_descriptions (atts : List Attachment) : List String :=
  (atts.filter fun a => pyStartsWith a.mimeType "image/").map
    fun a => "Image: " ++ a.fileName.getD "unknown"

/-- Result of processing one candidate response document inside the wait
loop of `_wait_for_user_input` (lines 850-935): `skip` means the document
is left in place and the loop moves on (trigger-id mismatch at lines
867-878, or a `json.loads` failure caught at line 927 before the
`unlink` at line 908 is reached); `consumed st` means the document was
deleted but polling continues (empty extracted input, lines 922-925);
`answered t st` means the document was deleted and `t` is returned. -/
inductive DocOutcome where
  | skip : DocOutcome
  | consumed : WaiterState → DocOutcome
  | answered : String → WaiterState → DocOutcome
deriving DecidableEq, Repr

/-- Processing of a single candidate response document by
`_wait_for_user_input` awaiting `trigger_id` (lines 850-935), faithful
to the source order: parse, extract text, check the declared trigger id
(skipping without deletion on a declared mismatch), record attachments
into the single slot (overwriting it, or clearing it when the document
carries none), append image-attachment descriptions to the text, delete
the file, and return the text only if it is non-empty. -/
def processDoc (trigger_id : String) (b : Body) : DocOutcome :=
  match b with
  | .malformedJson => .skip
  | .plain t =>
    let ui := pyStrip t
    if ui = "" then .consumed ⟨[]⟩ else .answered ui ⟨[]⟩
  | .json d =>
    let ui := extract_user_input d
    if d.trigger_id ≠ "" ∧ d.trigger_id ≠ trigger_id then .skip
    else if d.attachments = [] then
      if ui = "" then .consumed ⟨[]⟩ else .answered ui ⟨[]⟩
    else
      let descs := image_descriptions d.attachments
      let ui2 := if descs = [] then ui else ui ++ "\n\nAttached: " ++ pyJoin ", " descs
      if ui2 = "" then .consumed ⟨d.attachments⟩ else .answered ui2 ⟨d.attachments⟩

/-- The shared temporary-directory signal store: file name to parsed body. -/
def Store := List (String × Body)

/-- Models `Path.exists()` followed by `read_text()`: the first entry
under the given name, if any. -/
def lookupStore : Store → String → Option Body
  | [], _ => none
  | p :: s, n => if p.1 = n then some p.2 else lookupStore s n

/-- Models `Path.unlink()`: remove every entry under the given name. -/
def deleteStore : Store → String → Store
  | [], _ => []
  | p :: s, n => if p.1 = n then deleteStore s n else p :: deleteStore s n

/-- The per-request response file name
`review_gate_response_<trigger_id>.json`. -/
def response_file_scoped (trigger_id : String) : String :=
  "review_gate_response_" ++ trigger_id ++ ".json"

/-- The four candidate response file names checked in order by
`_wait_for_user_input` (lines 829-834). -/
def response_patterns (trigger_id : String) : List String :=
  [response_file_scoped trigger_id,
   "review_gate_response.json",
   "mcp_response_" ++ trigger_id ++ ".json",
   "mcp_response.json"]

/-- One pass of the inner `for response_file in response_patterns` loop
(lines 848-935): candidates are visited in order; a `skip` leaves the
store untouched, a `consumed` deletes the file and moves to the next
candidate, an `answered` deletes the file and returns its text. -/
def pollFiles (trigger_id : String) :
    List String → Store → WaiterState → Option String × Store × WaiterState
  | [], store, st => (none, store, st)
  | name :: rest, store, st =>
    match lookupStore store name with
    | none => pollFiles trigger_id rest store st
    | some b =>
      match processDoc trigger_id b with
      | .skip => pollFiles trigger_id rest store st
      | .consumed st1 => pollFiles trigger_id rest (deleteStore store name) st1
      | .answered t st1 => (some t, deleteStore store name, st1)

/-- One poll round over the four candidate file names. -/
def pollRound (trigger_id : String) (store : Store) (st : WaiterState) :
    Option String × Store × WaiterState :=
  pollFiles trigger_id (response_patterns trigger_id) store st

/-- The outer `while time.time() - start_time < timeout` loop of
`_wait_for_user_input` (lines 845-947).  `sched k` is the store observed
at poll iteration `k` (the host process may write or remove files
between iterations); `now` is the elapsed time at the loop-condition
check and each iteration advances it by the positive amount `dt + 1`,
abstracting the `asyncio.sleep` calls.  Returns the result, the elapsed
time at return, and the final single-slot attachment state. -/
def waitLoop (trigger_id : String) (timeout : Nat) (sched : Nat → Store) (dt : Nat)
    (st : WaiterState) (k now : Nat) : Option String × Nat × WaiterState :=
  if _h : now < timeout then
    match pollRound trigger_id (sched k) st with
    | (some t, _, st1) => (some t, now, st1)
    | (none, _, st1) => waitLoop trigger_id timeout sched dt st1 (k + 1) (now + dt + 1)
  else (none, now, st)
termination_by timeout - now

/-- Denotation of `_wait_for_user_input(trigger_id, timeout)` (lines
824-947): run the poll loop from elapsed time zero. -/
def wait_for_user_input (trigger_id : String) (timeout : Nat) (sched : Nat → Store)
    (dt : Nat) (st : WaiterState) : Option String × Nat × WaiterState :=
  waitLoop trigger_id timeout sched dt st 0 0

/-- The acknowledgement file name `review_gate_ack_<trigger_id>.json`. -/
def ack_file_name (trigger_id : String) : String :=
  "review_gate_ack_" ++ trigger_id ++ ".json"

/-- Body of the acknowledgement file observed by
`_wait_for_extension_acknowledgement`: either `json.loads` raises
(`malformed`) or it parses and `acknowledged` folds the
`data.get("acknowledged", False)` default. -/
inductive AckBody where
  | malformed : AckBody
  | json : Bool → AckBody
deriving DecidableEq, Repr

/-- One existence-check of the acknowledgement file (lines 793-809):
returns the observed flag (if any) and the store afterwards.  A parse
failure is caught at line 814 before the `unlink` at line 799 runs, so
the file stays; a parsed document is deleted immediately regardless of
its flag value. -/
def ack_observe : Option AckBody → Option Bool × Option AckBody
  | none => (none, none)
  | some .malformed => (none, some .malformed)
  | some (.json b) => (some b, none)

/-- The `while time.time() - start_time < timeout` loop of
`_wait_for_extension_acknowledgement` (lines 791-822): return `true`
upon observing a parsed acknowledgement with flag `true`, otherwise keep
polling; on timeout return `false`.  Returns the result and the elapsed
time at return. -/
def ack_loop (timeout : Nat) (sched : Nat → Option AckBody) (dt : Nat)
    (k now : Nat) : Bool × Nat :=
  if _h : now < timeout then
    match ack_observe (sched k) with
    | (some true, _) => (true, now)
    | _ => ack_loop timeout sched dt (k + 1) (now + dt + 1)
  else (false, now)
termination_by timeout - now

/-- Denotation of `_wait_for_extension_acknowledgement(trigger_id, timeout)`
(lines 779-822). -/
def wait_for_extension_acknowledgement (timeout : Nat) (sched : Nat → Option AckBody)
    (dt : Nat) : Bool × Nat :=
  ack_loop timeout sched dt 0 0

/-- Filesystem behaviour observed by one run of
`_trigger_cursor_popup_immediately` (lines 949-1054): whether
`trigger_file.write_text` succeeds without raising, whether
`trigger_file.exists()` holds immediately after the write, the result of
`trigger_file.stat().st_size` (`none` models a `FileNotFoundError`, the
host having already consumed the file), and whether the backup-copy
writes inside `_create_backup_triggers` succeed. -/
structure EmitEnv where
  writeOk : Bool
  existsAfterWrite : Bool
  statSize : Option Nat
  backupWriteOk : Bool
deriving DecidableEq, Repr

/-- Models `_create_backup_triggers` (lines 1056-1078): the whole body is
wrapped in `try/except`, so a failing backup write only yields the logged
warning and never raises to the caller. -/
def create_backup_triggers (writesOk : Bool) : Option String :=
  if writesOk then none else some "Backup trigger creation failed"

/-- The body of `_trigger_cursor_popup_immediately` inside its outer
`try` (lines 951-1048): a raising write propagates as an error to the
outer handler; a missing file after the write or a zero `st_size`
returns `False`; a `FileNotFoundError` from `stat` is caught at line 987
and treated as the host having consumed the trigger (success); the
backup-copy step never raises. -/
def trigger_cursor_popup_body (env : EmitEnv) : Except String Bool :=
  if env.writeOk = false then Except.error "write_text raised"
  else if env.existsAfterWrite = false then Except.ok false
  else
    match env.statSize with
    | some 0 => Except.ok false
    | some _ =>
      let _warn := create_backup_triggers env.backupWriteOk
      Except.ok true
    | none =>
      let _warn := create_backup_triggers env.backupWriteOk
      Except.ok true

/-- Denotation of `_trigger_cursor_popup_immediately` (lines 949-1054):
the outer `except` at line 1050 converts any raised error into `False`. -/
def trigger_cursor_popup_immediately (env : EmitEnv) : Bool :=
  match trigger_cursor_popup_body env with
  | Except.ok b => b
  | Except.error _ => false

/-- Environment observed by one run of `_process_speech_request` (lines
1202-1247): whether `self._whisper_model` is available, whether the
referenced audio file exists, and the outcome of the transcription call
(the joined segment text, or the `str(e)` of a raised exception). -/
structure SpeechEnv where
  whisperAvailable : Bool
  audioExists : Bool
  transcribeResult : Except String String
deriving Repr

/-- The speech result document written by `_write_speech_response`
(lines 1249-1272): `success` is `error is None` and `error` carries the
message (or JSON null). -/
structure SpeechResponse where
  trigger_id : String
  transcription : String
  success : Bool
  error : Option String
deriving DecidableEq, Repr

/-- The speech result file name
`review_gate_speech_response_<trigger_id>.json` (line 1254). -/
def speech_response_name (trigger_id : String) : String :=
  "review_gate_speech_response_" ++ trigger_id ++ ".json"

/-- Models `_write_speech_response(trigger_id, transcription, error)`
(lines 1249-1272): the written file name and document. -/
def write_speech_response (trigger_id transcription : String) (error : Option String) :
    String × SpeechResponse :=
  (speech_response_name trigger_id, ⟨trigger_id, transcription, error.isNone, error⟩)

/-- Models `_process_speech_request` (lines 1202-1247) on a trigger whose
data carries `audio_file` and `trigger_id` fields (Python falsiness of a
missing or empty value is folded into `= ""`): a missing field aborts
with no response written; an unavailable model or missing audio file
writes an error response; a successful transcription writes the stripped
joined text; a raising transcription is caught at line 1244 and writes
`str(e)` as the error. -/
def process_speech_request (env : SpeechEnv) (audio_file trigger_id : String) :
    Option (String × SpeechResponse) :=
  if audio_file = "" ∨ trigger_id = "" then none
  else if env.whisperAvailable = false then
    some (write_speech_response trigger_id "" (some "Whisper model not available"))
  else if env.audioExists = false then
    some (write_speech_response trigger_id "" (some "Audio file not found"))
  else
    match env.transcribeResult with
    | Except.ok segments => some (write_speech_response trigger_id (pyStrip segments) none)
    | Except.error e => some (write_speech_response trigger_id "" (some e))

/-- A candidate response document that can never produce an answer for
the waiter awaiting `trigger_id`: processing it either skips it or
consumes it without returning. -/
def NoAnswer (trigger_id : String) (b : Body) : Prop :=
  processDoc trigger_id b = DocOutcome.skip ∨
  ∃ st1, processDoc trigger_id b = DocOutcome.consumed st1

/-- A content item returned by the tool dispatcher: `TextContent` or
`ImageContent`. -/
inductive ContentItem where
  | text : String → ContentItem
  | image : String → String → ContentItem
deriving DecidableEq, Repr

/-- The body of the `try` inside `call_tool` (lines 226-232): the
`review_gate_chat` tool dispatches to its handler, any other name raises
`ValueError(f"Unknown tool: <name>")`. -/
def call_tool_body (name : String) (chatResult : List ContentItem) :
    Except String (List ContentItem) :=
  if name = "review_gate_chat" then Except.ok chatResult
  else Except.error ("Unknown tool: " ++ name)

/-- Denotation of the `call_tool` dispatcher (lines 211-240): the
`except` at line 233 catches any raised exception and returns a single
text item `ERROR: Tool <name> failed: <str(e)>`. -/
def call_tool (name : String) (chatResult : List ContentItem) : List ContentItem :=
  match call_tool_body name chatResult with
  | Except.ok r => r
  | Except.error e => [ContentItem.text ("ERROR: Tool " ++ name ++ " failed: " ++ e)]

/-! ### Helper lemmas about the store and the wait loops -/

theorem lookup_delete_self (s : Store) (n : String) :
    lookupStore (deleteStore s n) n = none := by
  induction s with
  | nil => rfl
  | cons p s ih =>
    by_cases h : p.1 = n
    · simpa [deleteStore, h] using ih
    · simpa [deleteStore, lookupStore, h] using ih

theorem lookup_delete_ne (s : Store) (m n : String) (h : n ≠ m) :
    lookupStore (deleteStore s m) n = lookupStore s n := by
  induction s with
  | nil => rfl
  | cons p s ih =>
    by_cases h1 : p.1 = m
    · have h2 : ¬ p.1 = n := fun hc => h (hc ▸ h1)
      simp only [deleteStore, if_pos h1, lookupStore, if_neg h2]
      exact ih
    · simp only [deleteStore, if_neg h1, lookupStore]
      by_cases h2 : p.1 = n
      · simp [h2]
      · simp only [if_neg h2]
        exact ih

theorem lookup_delete_sub (s : Store) (m n : String) (b : Body)
    (h : lookupStore (deleteStore s m) n = some b) : lookupStore s n = some b := by
  by_cases hnm : n = m
  · subst hnm
    rw [lookup_delete_self] at h
    cases h
  · rwa [lookup_delete_ne s m n hnm] at h

theorem processDoc_mismatch (T : String) (d : JsonDoc)
    (h1 : d.trigger_id ≠ "") (h2 : d.trigger_id ≠ T) :
    processDoc T (Body.json d) = DocOutcome.skip := by
  simp [processDoc, h1, h2]

theorem pollFiles_frame (T : String) (names : List String) (n : String) (b : Body)
    (hb : processDoc T b = DocOutcome.skip) :
    ∀ (store : Store) (st : WaiterState), lookupStore store n = some b →
      lookupStore (pollFiles T names store st).2.1 n = some b := by
  induction names with
  | nil =>
    intro store st hlk
    simpa [pollFiles] using hlk
  | cons m rest ih =>
    intro store st hlk
    cases hm : lookupStore store m with
    | none => simpa [pollFiles, hm] using ih store st hlk
    | some b2 =>
      cases hp : processDoc T b2 with
      | skip => simpa [pollFiles, hm, hp] using ih store st hlk
      | consumed st1 =>
        have hne : n ≠ m := by
          intro he
          subst he
          rw [hlk] at hm
          injection hm with hb2
          subst hb2
          rw [hb] at hp
          cases hp
        simp only [pollFiles, hm, hp]
        exact ih (deleteStore store m) st1 (by rwa [lookup_delete_ne store m n hne])
      | answered t st1 =>
        have hne : n ≠ m := by
          intro he
          subst he
          rw [hlk] at hm
          injection hm with hb2
          subst hb2
          rw [hb] at hp
          cases hp
        simp only [pollFiles, hm, hp]
        rwa [lookup_delete_ne store m n hne]

theorem pollFiles_noAnswer (T : String) (names : List String) :
    ∀ (store : Store) (st : WaiterState),
      (∀ n b, lookupStore store n = some b → NoAnswer T b) →
      (pollFiles T names store st).1 = none := by
  induction names with
  | nil => intro store st _; rfl
  | cons m rest ih =>
    intro store st h
    cases hm : lookupStore store m with
    | none => simpa [pollFiles, hm] using ih store st h
    | some b =>
      rcases h m b hm with hskip | ⟨st1, hcons⟩
      · simpa [pollFiles, hm, hskip] using ih store st h
      · simp only [pollFiles, hm, hcons]
        exact ih (deleteStore store m) st1
          (fun n b2 hlk2 => h n b2 (lookup_delete_sub store m n b2 hlk2))

theorem waitLoop_noAnswer (T : String) (timeout dt : Nat) (sched : Nat → Store)
    (hall : ∀ k n b, lookupStore (sched k) n = some b → NoAnswer T b) :
    ∀ (N k now : Nat) (st : WaiterState), timeout - now ≤ N →
      (waitLoop T timeout sched dt st k now).1 = none ∧
      timeout ≤ (waitLoop T timeout sched dt st k now).2.1 := by
  intro N
  induction N with
  | zero =>
    intro k now st hN
    have h : ¬ now < timeout := by omega
    rw [waitLoop]
    simp [h]
    omega
  | succ N ih =>
    intro k now st hN
    by_cases h : now < timeout
    · have h1 : (pollRound T (sched k) st).1 = none :=
        pollFiles_noAnswer T (response_patterns T) (sched k) st (hall k)
      rcases hpr : pollRound T (sched k) st with ⟨r, s2, st2⟩
      rw [hpr] at h1
      cases r with
      | some t => simp at h1
      | none =>
        rw [waitLoop]
        simp only [dif_pos h, hpr]
        exact ih (k + 1) (now + dt + 1) st2 (by omega)
    · rw [waitLoop]
      simp [h]
      omega

theorem ack_loop_no_true (timeout dt : Nat) (sched : Nat → Option AckBody)
    (hsched : ∀ k, sched k ≠ some (AckBody.json true)) :
    ∀ (N k now : Nat), timeout - now ≤ N →
      (ack_loop timeout sched dt k now).1 = false ∧
      timeout ≤ (ack_loop timeout sched dt k now).2 := by
  intro N
  induction N with
  | zero =>
    intro k now hN
    have h : ¬ now < timeout := by omega
    rw [ack_loop]
    simp [h]
    omega
  | succ N ih =>
    intro k now hN
    by_cases h : now < timeout
    · rw [ack_loop]
      cases hk : sched k with
      | none =>
        simp only [dif_pos h, hk, ack_observe]
        exact ih (k + 1) (now + dt + 1) (by omega)
      | some ab =>
        cases ab with
        | malformed =>
          simp only [dif_pos h, hk, ack_observe]
          exact ih (k + 1) (now + dt + 1) (by omega)
        | json b =>
          cases b with
          | true => exact absurd hk (hsched k)
          | false =>
            simp only [dif_pos h, hk, ack_observe]
            exact ih (k + 1) (now + dt + 1) (by omega)
    · rw [ack_loop]
      simp [h]
      omega

theorem append_ne_empty_left (a b : String) (h : a ≠ "") : a ++ b ≠ "" := by
  intro he
  have h2 : a.data ++ b.data = [] := by
    have := congrArg String.data he
    simpa [String.data_append] using this
  rcases List.append_eq_nil.mp h2 with ⟨h1, _⟩
  exact h (String.ext h1)

/-! ### Claims -/

/-- C1: for every call to the response waiter awaiting trigger id `T`,
every candidate response document containing valid JSON that declares a
non-empty `trigger_id` different from `T` is skipped: the document
survives any poll round untouched (it is not deleted by that waiter),
and a call whose schedule only ever shows such documents returns no
result, so the skipped document's text is never returned. -/
theorem c1_mismatched_response_skipped (T n : String) (store : Store) (st : WaiterState)
    (d : JsonDoc) (hlk : lookupStore store n = some (Body.json d))
    (h1 : d.trigger_id ≠ "") (h2 : d.trigger_id ≠ T) :
    lookupStore (pollRound T store st).2.1 n = some (Body.json d) ∧
    ∀ (timeout dt : Nat) (sched : Nat → Store) (st0 : WaiterState),
      (∀ k m b, lookupStore (sched k) m = some b →
        ∃ d2, b = Body.json d2 ∧ d2.trigger_id ≠ "" ∧ d2.trigger_id ≠ T) →
      (wait_for_user_input T timeout sched dt st0).1 = none := by
  constructor
  · exact pollFiles_frame T (response_patterns T) n (Body.json d)
      (processDoc_mismatch T d h1 h2) store st hlk
  · intro timeout dt sched st0 hsched
    have hall : ∀ k m b, lookupStore (sched k) m = some b → NoAnswer T b := by
      intro k m b hb
      rcases hsched k m b hb with ⟨d2, rfl, hd1, hd2⟩
      exact Or.inl (processDoc_mismatch T d2 hd1 hd2)
    exact (waitLoop_noAnswer T timeout dt sched hall timeout 0 0 st0 (by omega)).1

theorem c1_witness :
    lookupStore (pollRound "review_1"
        [("review_gate_response.json",
          Body.json ⟨some "hi", none, none, [], "review_2"⟩)] ⟨[]⟩).2.1
      "review_gate_response.json"
      = some (Body.json ⟨some "hi", none, none, [], "review_2"⟩) ∧
    (wait_for_user_input "review_1" 2
        (fun _ => [("review_gate_response.json",
          Body.json ⟨some "hi", none, none, [], "review_2"⟩)]) 0 ⟨[]⟩).1 = none := by
  have h := c1_mismatched_response_skipped "review_1" "review_gate_response.json"
    [("review_gate_response.json", Body.json ⟨some "hi", none, none, [], "review_2"⟩)]
    ⟨[]⟩ ⟨some "hi", none, none, [], "review_2"⟩ (by decide) (by decide) (by decide)
  refine ⟨h.1, h.2 2 0 _ ⟨[]⟩ ?_⟩
  intro k m b hb
  simp only [lookupStore] at hb
  split at hb
  · cases hb
    exact ⟨⟨some "hi", none, none, [], "review_2"⟩, rfl, by decide, by decide⟩
  · cases hb

/-- C2: the emitter returns `False` exactly when the primary trigger
write cannot be verified — the write raised, or the file is absent
immediately after the write, or its observed size is zero.  In
particular a `FileNotFoundError` while checking the size (modelled as
`statSize = none`) is success, and the result does not depend on
whether the three numbered backup-copy writes fail. -/
theorem c2_emitter_failure_conditions (writeOk existsAfterWrite : Bool)
    (statSize : Option Nat) (backupWriteOk : Bool) :
    (trigger_cursor_popup_immediately ⟨writeOk, existsAfterWrite, statSize, backupWriteOk⟩ = false ↔
      (writeOk = false ∨ existsAfterWrite = false ∨ statSize = some 0)) ∧
    ∀ b : Bool,
      trigger_cursor_popup_immediately ⟨writeOk, existsAfterWrite, statSize, b⟩ =
      trigger_cursor_popup_immediately ⟨writeOk, existsAfterWrite, statSize, backupWriteOk⟩ := by
  constructor
  · rcases statSize with _ | n
    · cases writeOk <;> cases existsAfterWrite <;>
        simp [trigger_cursor_popup_immediately, trigger_cursor_popup_body]
    · cases n <;> cases writeOk <;> cases existsAfterWrite <;>
        simp [trigger_cursor_popup_immediately, trigger_cursor_popup_body]
  · intro b
    rcases statSize with _ | n
    · cases writeOk <;> cases existsAfterWrite <;> rfl
    · cases n <;> cases writeOk <;> cases existsAfterWrite <;> rfl

/-- C3: the acknowledgement waiter deletes an observed (parsed)
acknowledgement document immediately regardless of its flag value, so a
second read observes it absent; and a call whose schedule never shows a
document with flag `true` returns `false` (a value, not an exception —
the model is a total function), and only once the timeout has
elapsed. -/
theorem c3_acknowledgement_consumed_and_timeout :
    (∀ b : Bool, (ack_observe (some (AckBody.json b))).2 = none) ∧
    ∀ (timeout dt : Nat) (sched : Nat → Option AckBody),
      (∀ k, sched k ≠ some (AckBody.json true)) →
      (wait_for_extension_acknowledgement timeout sched dt).1 = false ∧
      timeout ≤ (wait_for_extension_acknowledgement timeout sched dt).2 := by
  constructor
  · intro b
    rfl
  · intro timeout dt sched hsched
    exact ack_loop_no_true timeout dt sched hsched timeout 0 0 (by omega)

theorem c3_witness :
    (ack_observe (some (AckBody.json false))).2 = none ∧
    (wait_for_extension_acknowledgement 2 (fun _ => some (AckBody.json false)) 0).1 = false ∧
    2 ≤ (wait_for_extension_acknowledgement 2 (fun _ => some (AckBody.json false)) 0).2 := by
  have h := c3_acknowledgement_consumed_and_timeout
  have h2 := h.2 2 0 (fun _ => some (AckBody.json false))
    (by intro k; show some (AckBody.json false) ≠ some (AckBody.json true); decide)
  exact ⟨h.1 false, h2.1, h2.2⟩

/-- C4: on a JSON response document the waiter extracts the response
text from the first of the field names present in priority order —
`user_input`, then `response`, then `message` — and defaults to the
empty string when none of the three keys is present (the code applies
`strip()` to the extracted value). -/
theorem c4_response_field_priority (s : String) (r m : Option String)
    (atts : List Attachment) (t : String) :
    extract_user_input ⟨some s, r, m, atts, t⟩ = pyStrip s ∧
    extract_user_input ⟨none, some s, m, atts, t⟩ = pyStrip s ∧
    extract_user_input ⟨none, none, some s, atts, t⟩ = pyStrip s ∧
    extract_user_input ⟨none, none, none, atts, t⟩ = "" :=
  ⟨rfl, rfl, rfl, rfl⟩

/-- C5 counterexample: the claim "a document yielding an empty extracted
text (after stripping) is deleted but not returned" fails on the code.
A JSON document with an empty `user_input` but an image attachment gets
the attachment description appended after the trigger check, making the
final text non-empty, so the waiter deletes it and returns it: here the
poll round returns the text of exactly such a document. -/
theorem c5_counterexample :
    extract_user_input ⟨some "", none, none, [⟨"image/png", some "pic.png", "AA"⟩], ""⟩ = "" ∧
    processDoc "review_1"
        (Body.json ⟨some "", none, none, [⟨"image/png", some "pic.png", "AA"⟩], ""⟩)
      = DocOutcome.answered "\n\nAttached: Image: pic.png"
          ⟨[⟨"image/png", some "pic.png", "AA"⟩]⟩ ∧
    (pollRound "review_1"
        [("review_gate_response.json",
          Body.json ⟨some "", none, none, [⟨"image/png", some "pic.png", "AA"⟩], ""⟩)] ⟨[]⟩).1
      = some "\n\nAttached: Image: pic.png" := by decide

/-- C5 (amended): when a candidate response document yields an empty
extracted text (after stripping) and gains no appended image-attachment
description — no attachment with an `image/` mime type, which is the
only way the code re-extends the text — the waiter still deletes the
document (`consumed`) but does not return it, and polling continues:
a call whose schedule never shows an answerable document returns no
result and only once the timeout has elapsed.  (With an image
attachment present the appended description makes the text non-empty
and the document is returned, per the counterexample.) -/
theorem c5_empty_input_consumed (T : String) (d : JsonDoc)
    (hacc : ¬(d.trigger_id ≠ "" ∧ d.trigger_id ≠ T))
    (hui : extract_user_input d = "")
    (himg : image_descriptions d.attachments = []) :
    processDoc T (Body.json d) = DocOutcome.consumed ⟨d.attachments⟩ ∧
    (∀ t : String, pyStrip t = "" → processDoc T (Body.plain t) = DocOutcome.consumed ⟨[]⟩) ∧
    ∀ (timeout dt : Nat) (sched : Nat → Store) (st0 : WaiterState),
      (∀ k m b, lookupStore (sched k) m = some b → NoAnswer T b) →
      (wait_for_user_input T timeout sched dt st0).1 = none ∧
      timeout ≤ (wait_for_user_input T timeout sched dt st0).2.1 := by
  refine ⟨?_, ?_, ?_⟩
  · by_cases hA : d.attachments = []
    · simp [processDoc, hacc, hA, hui]
    · simp [processDoc, hacc, hA, himg, hui]
  · intro t ht
    simp [processDoc, ht]
  · intro timeout dt sched st0 hall
    exact waitLoop_noAnswer T timeout dt sched hall timeout 0 0 st0 (by omega)

theorem c5_witness :
    processDoc "review_1" (Body.json ⟨some "", none, none, [], ""⟩)
      = DocOutcome.consumed ⟨[]⟩ ∧
    (wait_for_user_input "review_1" 1
      (fun _ => [("review_gate_response.json",
        Body.json ⟨some "", none, none, [], ""⟩)]) 0 ⟨[]⟩).1 = none := by
  have h := c5_empty_input_consumed "review_1" ⟨some "", none, none, [], ""⟩
    (by decide) (by decide) (by decide)
  refine ⟨h.1, (h.2.2 1 0 _ ⟨[]⟩ ?_).1⟩
  intro k m b hb
  simp only [lookupStore] at hb
  split at hb
  · cases hb
    exact Or.inr ⟨⟨[]⟩, by decide⟩
  · cases hb

/-- C6: a candidate response document whose body starts with the
structural marker but is not valid JSON never escapes the wait loop (the
model is a total function): the parse failure skips the document, it is
not deleted by any poll round, and a call whose schedule only ever shows
malformed documents keeps polling and returns no result only once the
timeout has elapsed. -/
theorem c6_malformed_json_skipped (T n : String) (store : Store) (st : WaiterState)
    (hlk : lookupStore store n = some Body.malformedJson) :
    lookupStore (pollRound T store st).2.1 n = some Body.malformedJson ∧
    ∀ (timeout dt : Nat) (sched : Nat → Store) (st0 : WaiterState),
      (∀ k m b, lookupStore (sched k) m = some b → b = Body.malformedJson) →
      (wait_for_user_input T timeout sched dt st0).1 = none ∧
      timeout ≤ (wait_for_user_input T timeout sched dt st0).2.1 := by
  constructor
  · exact pollFiles_frame T (response_patterns T) n Body.malformedJson rfl store st hlk
  · intro timeout dt sched st0 hsched
    have hall : ∀ k m b, lookupStore (sched k) m = some b → NoAnswer T b := by
      intro k m b hb
      rw [hsched k m b hb]
      exact Or.inl rfl
    exact waitLoop_noAnswer T timeout dt sched hall timeout 0 0 st0 (by omega)

theorem c6_witness :
    lookupStore (pollRound "review_1" [("mcp_response.json", Body.malformedJson)] ⟨[]⟩).2.1
      "mcp_response.json" = some Body.malformedJson ∧
    (wait_for_user_input "review_1" 2
      (fun _ => [("mcp_response.json", Body.malformedJson)]) 0 ⟨[]⟩).1 = none ∧
    2 ≤ (wait_for_user_input "review_1" 2
      (fun _ => [("mcp_response.json", Body.malformedJson)]) 0 ⟨[]⟩).2.1 := by
  have h := c6_malformed_json_skipped "review_1" "mcp_response.json"
    [("mcp_response.json", Body.malformedJson)] ⟨[]⟩ (by decide)
  have h2 := h.2 2 0 (fun _ => [("mcp_response.json", Body.malformedJson)]) ⟨[]⟩ ?_
  · exact ⟨h.1, h2.1, h2.2⟩
  · intro k m b hb
    simp only [lookupStore] at hb
    split at hb
    · cases hb
      rfl
    · cases hb

/-- C7: a response document consumed by the waiter (accepted because its
declared trigger id matches or is absent) that carries an attachments
array of length 3 leaves the single-slot attachment store holding
exactly those 3 entries: every consuming outcome of its processing
stores exactly `d.attachments`, and a full call that returns on such a
document ends with the slot holding exactly those entries, whatever
`st0` the slot held before (single slot, overwritten, not a queue). -/
theorem c7_attachments_single_slot (T : String) (d : JsonDoc)
    (hacc : ¬(d.trigger_id ≠ "" ∧ d.trigger_id ≠ T))
    (hlen : d.attachments.length = 3) :
    (∀ u st1, processDoc T (Body.json d) = DocOutcome.answered u st1 →
      st1.last_attachments = d.attachments) ∧
    (∀ st1, processDoc T (Body.json d) = DocOutcome.consumed st1 →
      st1.last_attachments = d.attachments) ∧
    ∀ (timeout dt : Nat) (st0 : WaiterState), 0 < timeout →
      extract_user_input d ≠ "" →
      ((wait_for_user_input T timeout
          (fun _ => [(response_file_scoped T, Body.json d)]) dt st0).2.2).last_attachments
        = d.attachments ∧
      (wait_for_user_input T timeout
          (fun _ => [(response_file_scoped T, Body.json d)]) dt st0).1 ≠ none := by
  have hne : d.attachments ≠ [] := by
    intro he
    rw [he] at hlen
    cases hlen
  have hchar : processDoc T (Body.json d) = DocOutcome.consumed ⟨d.attachments⟩ ∨
      ∃ u2, processDoc T (Body.json d) = DocOutcome.answered u2 ⟨d.attachments⟩ := by
    rw [processDoc]
    simp only [if_neg hacc, if_neg hne]
    by_cases hc : (if image_descriptions d.attachments = [] then extract_user_input d
        else extract_user_input d ++ "\n\nAttached: "
          ++ pyJoin ", " (image_descriptions d.attachments)) = ""
    · left
      rw [if_pos hc]
    · right
      exact ⟨_, by rw [if_neg hc]⟩
  refine ⟨?_, ?_, ?_⟩
  · intro u st1 hp
    rcases hchar with hc | ⟨u2, hc⟩
    · rw [hc] at hp
      cases hp
    · rw [hc] at hp
      cases hp
      rfl
  · intro st1 hp
    rcases hchar with hc | ⟨u2, hc⟩
    · rw [hc] at hp
      cases hp
      rfl
    · rw [hc] at hp
      cases hp
  · intro timeout dt st0 htpos hui
    have hu2ne : (if image_descriptions d.attachments = [] then extract_user_input d
        else extract_user_input d ++ "\n\nAttached: "
          ++ pyJoin ", " (image_descriptions d.attachments)) ≠ "" := by
      by_cases hdesc : image_descriptions d.attachments = []
      · simpa [hdesc] using hui
      · simp only [if_neg hdesc]
        exact append_ne_empty_left _ _ (append_ne_empty_left _ _ hui)
    have hans : processDoc T (Body.json d)
        = DocOutcome.answered
            (if image_descriptions d.attachments = [] then extract_user_input d
              else extract_user_input d ++ "\n\nAttached: "
                ++ pyJoin ", " (image_descriptions d.attachments))
            ⟨d.attachments⟩ := by
      rw [processDoc]
      simp only [if_neg hacc, if_neg hne]
      rw [if_neg hu2ne]
    have hpoll : pollRound T [(response_file_scoped T, Body.json d)] st0
        = (some (if image_descriptions d.attachments = [] then extract_user_input d
              else extract_user_input d ++ "\n\nAttached: "
                ++ pyJoin ", " (image_descriptions d.attachments)),
           deleteStore [(response_file_scoped T, Body.json d)] (response_file_scoped T),
           ⟨d.attachments⟩) := by
      simp [pollRound, response_patterns, pollFiles, lookupStore, hans]
    have hrun : wait_for_user_input T timeout
        (fun _ => [(response_file_scoped T, Body.json d)]) dt st0
        = (some (if image_descriptions d.attachments = [] then extract_user_input d
              else extract_user_input d ++ "\n\nAttached: "
                ++ pyJoin ", " (image_descriptions d.attachments)),
           0, ⟨d.attachments⟩) := by
      rw [wait_for_user_input, waitLoop]
      rw [dif_pos htpos]
      rw [hpoll]
    rw [hrun]
    exact ⟨rfl, by simp⟩

theorem c7_witness :
    ((wait_for_user_input "review_1" 1
        (fun _ => [(response_file_scoped "review_1",
          Body.json ⟨some "ok", none, none,
            [⟨"image/png", some "a.png", "AA"⟩, ⟨"text/plain", none, "BB"⟩,
             ⟨"image/jpeg", none, "CC"⟩], "review_1"⟩)]) 0 ⟨[]⟩).2.2).last_attachments
      = [⟨"image/png", some "a.png", "AA"⟩, ⟨"text/plain", none, "BB"⟩,
         ⟨"image/jpeg", none, "CC"⟩] ∧
    (wait_for_user_input "review_1" 1
        (fun _ => [(response_file_scoped "review_1",
          Body.json ⟨some "ok", none, none,
            [⟨"image/png", some "a.png", "AA"⟩, ⟨"text/plain", none, "BB"⟩,
             ⟨"image/jpeg", none, "CC"⟩], "review_1"⟩)]) 0 ⟨[]⟩).1 ≠ none :=
  (c7_attachments_single_slot "review_1"
    ⟨some "ok", none, none,
      [⟨"image/png", some "a.png", "AA"⟩, ⟨"text/plain", none, "BB"⟩,
       ⟨"image/jpeg", none, "CC"⟩], "review_1"⟩
    (by decide) (by decide)).2.2 1 0 ⟨[]⟩ (by decide) (by decide)

/-- C8 counterexample: the claim "the error field is non-empty" fails on
the code at the transcription-raises case.  The handler writes
`str(e)` as the error, and for an exception whose message is the empty
string the written result document carries `success: false` but an empty
`error` field. -/
theorem c8_counterexample :
    process_speech_request ⟨true, true, Except.error ""⟩ "audio.wav" "t1"
      = some (speech_response_name "t1", ⟨"t1", "", false, some ""⟩) := by decide

/-- C8 (amended): for every speech trigger carrying both a `trigger_id`
and an `audio_file` (both non-empty, per Python truthiness), if the
transcription capability is unavailable, or the audio file does not
exist, or transcription raises, then `_process_speech_request` still
writes `review_gate_speech_response_<trigger_id>.json` with `success`
false and a non-null `error` field rather than silently dropping the
request; the error text is the fixed non-empty message in the
capability-unavailable and missing-file cases, and is the raised
exception's message — which may be empty — when transcription raises. -/
theorem c8_speech_failure_response (env : SpeechEnv) (audio_file trigger_id : String)
    (haf : audio_file ≠ "") (hid : trigger_id ≠ "")
    (hfail : env.whisperAvailable = false ∨ env.audioExists = false ∨
      ∃ e, env.transcribeResult = Except.error e) :
    ∃ err : String,
      process_speech_request env audio_file trigger_id
        = some (speech_response_name trigger_id, ⟨trigger_id, "", false, some err⟩) ∧
      (env.whisperAvailable = false → err = "Whisper model not available") ∧
      (env.whisperAvailable = true → env.audioExists = false →
        err = "Audio file not found") := by
  have hvalid : ¬(audio_file = "" ∨ trigger_id = "") := by
    rintro (h | h)
    · exact haf h
    · exact hid h
  rcases env with ⟨w, a, tr⟩
  cases w
  · refine ⟨"Whisper model not available", ?_, fun _ => rfl, ?_⟩
    · simp [process_speech_request, hvalid, write_speech_response]
    · intro h
      cases h
  · cases a
    · refine ⟨"Audio file not found", ?_, ?_, fun _ _ => rfl⟩
      · simp [process_speech_request, hvalid, write_speech_response]
      · intro h
        cases h
    · rcases hfail with h | h | ⟨e, he⟩
      · cases h
      · cases h
      · refine ⟨e, ?_, ?_, ?_⟩
        · subst he
          simp [process_speech_request, hvalid, write_speech_response]
        · intro h
          cases h
        · intro _ h
          cases h

theorem c8_witness :
    ∃ err : String,
      process_speech_request ⟨false, true, Except.ok "x"⟩ "a.wav" "t1"
        = some (speech_response_name "t1", ⟨"t1", "", false, some err⟩) ∧
      ((false : Bool) = false → err = "Whisper model not available") ∧
      ((false : Bool) = true → (true : Bool) = false → err = "Audio file not found") :=
  c8_speech_failure_response ⟨false, true, Except.ok "x"⟩ "a.wav" "t1"
    (by decide) (by decide) (Or.inl rfl)

/-- C9: if no candidate response document ever appears (every poll
observes an empty store), the response waiter returns the no-response
outcome `none`, and its exit time is at or after the requested timeout,
never before. -/
theorem c9_timeout_lower_bound (T : String) (timeout dt : Nat) (sched : Nat → Store)
    (st0 : WaiterState) (hempty : ∀ k n, lookupStore (sched k) n = none) :
    (wait_for_user_input T timeout sched dt st0).1 = none ∧
    timeout ≤ (wait_for_user_input T timeout sched dt st0).2.1 := by
  have hall : ∀ k n b, lookupStore (sched k) n = some b → NoAnswer T b := by
    intro k n b hb
    rw [hempty k n] at hb
    cases hb
  exact waitLoop_noAnswer T timeout dt sched hall timeout 0 0 st0 (by omega)

theorem c9_witness :
    (wait_for_user_input "review_1000" 2 (fun _ => []) 0 ⟨[]⟩).1 = none ∧
    2 ≤ (wait_for_user_input "review_1000" 2 (fun _ => []) 0 ⟨[]⟩).2.1 :=
  c9_timeout_lower_bound "review_1000" 2 0 (fun _ => []) ⟨[]⟩ (fun _ _ => rfl)

/-- C10: for every tool name other than review_gate_chat the dispatcher
does not propagate an exception (the model is a total function): the
internally raised ValueError is caught and the call returns a single
text content item whose text starts with the string
`ERROR: Tool <name> failed:`. -/
theorem c10_unknown_tool_error (name : String) (chatResult : List ContentItem)
    (h : name ≠ "review_gate_chat") :
    ∃ rest : String,
      call_tool name chatResult
        = [ContentItem.text (("ERROR: Tool " ++ name ++ " failed:") ++ rest)] := by
  refine ⟨" Unknown tool: " ++ name, ?_⟩
  simp only [call_tool, call_tool_body, if_neg h]
  rw [String.append_assoc ("ERROR: Tool " ++ name) " failed: " ("Unknown tool: " ++ name),
      String.append_assoc ("ERROR: Tool " ++ name) " failed:" (" Unknown tool: " ++ name)]
  congr 1

theorem c10_witness :
    ∃ rest : String,
      call_tool "quick_review" []
        = [ContentItem.text (("ERROR: Tool " ++ "quick_review" ++ " failed:") ++ rest)] :=
  c10_unknown_tool_error "quick_review" [] (by decide)
